import Mathlib

/-!
Verification of the survey-aggregation logic of `app.py` (ergonomic risk
dashboard).  The pandas pipeline is shallowly embedded: a dataframe is a
list of named columns, a cell is an integer, a string, or the missing
value NaN (`Cell.na`), and every transformation of the source (column-name
stripping, GROUP assignment, label maps, binary Yes/No conversion) is a
pure Lean function translated line by line from `app.py`.
-/

namespace ErgoApp

/-- Substring helpers: `charsStartWith s p` is true when `p` is an initial
segment of `s` (character lists). -/
def charsStartWith : List Char → List Char → Bool
  | _, [] => true
  | [], _ :: _ => false
  | c :: s, d :: p => c == d && charsStartWith s p

/-- `charsContain s p`: `p` occurs as a contiguous block inside `s`;
models Python's `in` operator on strings. -/
def charsContain : List Char → List Char → Bool
  | [], p => p.isEmpty
  | s@(_ :: rest), p => charsStartWith s p || charsContain rest p

/-- Python `pat in s` on strings. -/
def strContains (s pat : String) : Bool :=
  charsContain s.toList pat.toList

/-- Whitespace recognizer used by `str.strip`. -/
def isSpaceChar (c : Char) : Bool :=
  c == ' ' || c == '\t' || c == '\n' || c == '\r'

/-- Python `str.strip()`: remove leading and trailing whitespace
(models `df.columns.str.strip()`, app.py line 24). -/
def strStrip (s : String) : String :=
  ⟨((s.toList.dropWhile isSpaceChar).reverse.dropWhile isSpaceChar).reverse⟩

/-- One dataframe cell: an int64 value, a string, or pandas' missing
value NaN. -/
inductive Cell where
  | int (i : Int)
  | str (s : String)
  | na
deriving DecidableEq

/-- A named dataframe column. -/
structure Col where
  name : String
  cells : List Cell
deriving DecidableEq

/-- A dataframe: ordered list of named columns. -/
abbrev Table := List Col

/-- `len(df)`: the row count (length of the first column; 0 for an empty
frame). -/
def nrows (t : Table) : Nat :=
  match t with
  | [] => 0
  | c :: _ => c.cells.length

/-- app.py line 27:
`df['GROUP'] = ['General' if i < 20 else 'Neuro' for i in range(len(df))]`
— the cohort labels, by record position. -/
def mkGroups (n : Nat) : List String :=
  (List.range n).map (fun i => if i < 20 then "General" else "Neuro")

/-- Cohort labels as a GROUP cell column. -/
def groupCells (n : Nat) : List Cell :=
  (mkGroups n).map Cell.str

/-- `df['GROUP'] = ...` (line 27): replace the GROUP column if present,
otherwise append it at the end, holding the positional cohort labels. -/
def addGroup (t : Table) : Table :=
  if t.any (fun c => c.name == "GROUP") then
    t.map (fun c => if c.name == "GROUP" then ⟨c.name, groupCells (nrows t)⟩ else c)
  else
    t ++ [⟨"GROUP", groupCells (nrows t)⟩]

/-- `df.columns = df.columns.str.strip()` (line 24). -/
def stripNames (t : Table) : Table :=
  t.map (fun c => ⟨strStrip c.name, c.cells⟩)

/-- pandas `Series.map({1:'Male', 2:'Female'})` (line 30): unmapped values,
including NaN, become NaN. -/
def genderMap : Cell → Cell
  | .int 1 => .str "Male"
  | .int 2 => .str "Female"
  | _ => .na

/-- `df['BMI CATEGORY'].map({0:'Unknown',1:'Underweight',2:'Normal',3:'Overweight'})`
(lines 31-36); unmapped values become NaN. -/
def bmiMap : Cell → Cell
  | .int 0 => .str "Unknown"
  | .int 1 => .str "Underweight"
  | .int 2 => .str "Normal"
  | .int 3 => .str "Overweight"
  | _ => .na

/-- `df['WORKING PLACE'].map({1:'Hospital',2:'Clinic',3:'Private Practice'})`
(lines 37-41); unmapped values become NaN. -/
def workingPlaceMap : Cell → Cell
  | .int 1 => .str "Hospital"
  | .int 2 => .str "Clinic"
  | .int 3 => .str "Private Practice"
  | _ => .na

/-- `df['THECNNIQUE USED'].map({0:'None',1:'Manual Therapy',2:'Exercise Therapy',3:'Electrotherapy'})`
(lines 42-47); unmapped values become NaN. -/
def techniqueMap : Cell → Cell
  | .int 0 => .str "None"
  | .int 1 => .str "Manual Therapy"
  | .int 2 => .str "Exercise Therapy"
  | .int 3 => .str "Electrotherapy"
  | _ => .na

/-- `df[name] = df[name].map(f)`: rewrite the cells of the named column.
(When the column is absent the source raises KeyError into the
`except` block; that path is outside the claims and the model leaves
the table unchanged.) -/
def mapColumn (t : Table) (name : String) (f : Cell → Cell) : Table :=
  t.map (fun c => if c.name == name then ⟨c.name, c.cells.map f⟩ else c)

/-- The columns excluded from binary conversion (lines 52-53). -/
def excludedCols : List String :=
  ["PARTICIPANT ID", "AGE", "HEIGHT", "WEIGHT", "BMI",
   "YEAR OF EXPERIENCE", "REBA SCORE", "REBA_CATEGORY", "GROUP"]

/-- `df[col].dtype == 'int64'`: in pandas a column has dtype int64 exactly
when every cell is an integer (a NaN forces float64, a string forces
object). -/
def colDtypeInt (cells : List Cell) : Bool :=
  cells.all (fun c => match c with | .int _ => true | _ => false)

/-- `set(df[col].unique()).issubset({0, 1})` for an int64 column. -/
def colVals01 (cells : List Cell) : Bool :=
  cells.all (fun c => c == Cell.int 0 || c == Cell.int 1)

/-- The guard of the binary conversion loop (lines 52-54). -/
def convertCond (name : String) (cells : List Cell) : Bool :=
  !(strContains name "Unnamed") && !(excludedCols.contains name) &&
    colDtypeInt cells && colVals01 cells

/-- `Series.map({0:'No', 1:'Yes'})` (line 55); anything else becomes NaN. -/
def yesNoMap : Cell → Cell
  | .int 0 => .str "No"
  | .int 1 => .str "Yes"
  | _ => .na

/-- The binary-conversion loop (lines 50-56): each column satisfying the
guard is mapped to No/Yes; every other column is untouched. -/
def convertPain (t : Table) : Table :=
  t.map (fun c =>
    if convertCond c.name c.cells then ⟨c.name, c.cells.map yesNoMap⟩ else c)

/-- The whole load-time processing of the `try` block (lines 21-56):
strip column names, assign GROUP, normalize the four label columns,
convert binary indicator columns to No/Yes. -/
def processTable (t : Table) : Table :=
  let t1 := stripNames t
  let t2 := addGroup t1
  let t3 := mapColumn t2 "GENDER" genderMap
  let t4 := mapColumn t3 "BMI CATEGORY" bmiMap
  let t5 := mapColumn t4 "WORKING PLACE" workingPlaceMap
  let t6 := mapColumn t5 "THECNNIQUE USED" techniqueMap
  convertPain t6

/-- The `@st.cache_data` memo on `load_data` (lines 16-18): at most one
cached table. -/
structure CacheState where
  cache : Option Table
deriving DecidableEq

/-- `load_data()` under `st.cache_data`: return the cached table when
present, otherwise read the source (`raw`) and cache it. -/
def load_data (raw : Table) (s : CacheState) : Table × CacheState :=
  match s.cache with
  | some t => (t, s)
  | none => (raw, ⟨some raw⟩)

/-- One full run of the load-and-process pipeline, threading the cache. -/
def runPipeline (raw : Table) (s : CacheState) : Table × CacheState :=
  let (d, s1) := load_data raw s
  (processTable d, s1)

/-- `Cell.na` recognizer. -/
def cellIsNa : Cell → Bool
  | .na => true
  | _ => false

/-- `Series.value_counts()` on the REBA_CATEGORY column (line 95): one
(value, count) entry per distinct non-missing value that occurs; NaN is
dropped; zero-count values never appear.  (The descending-count order of
pandas is irrelevant to the claims and not modelled.) -/
def rebaValueCounts (cells : List Cell) : List (Cell × Nat) :=
  let present := cells.filter (fun c => !cellIsNa c)
  present.dedup.map (fun v => (v, present.count v))

/-- `Series.mean()` / `describe()['mean']` of a numeric column: the mean
of the non-missing values, NaN (modelled `none`) when there are none. -/
def rebaMean (cells : List Cell) : Option ℚ :=
  let vals := cells.filterMap (fun c => match c with | .int i => some i | _ => none)
  if vals.length = 0 then none
  else some ((vals.sum : ℚ) / (vals.length : ℚ))

/-- `(subset[part] == 'Yes').mean() * 100` (line 113): comparing with
`'Yes'` gives False on every non-'Yes' cell (NaN included), and `mean`
divides by the total number of rows; on an empty subset pandas returns
NaN (modelled `none`). -/
def painIncidence (cells : List Cell) : Option ℚ :=
  if cells.length = 0 then none
  else some (((cells.count (Cell.str "Yes") : ℚ) / (cells.length : ℚ)) * 100)

/-- The nine body regions of `create_body_part_comparison` (lines 104-105). -/
def bodyParts : List String :=
  ["NECK", "SHOULDER", "ELBOW", "WRIST / HAND",
   "UPPER BACK", "LOWER BACK", "HIP", "KNEE", "ANKLE / FEET"]

/-- Column lookup by name (`df[name]` / `name in df.columns`). -/
def getCol (t : Table) (name : String) : Option (List Cell) :=
  (t.find? (fun c => c.name == name)).map Col.cells

/-- Row indices of `df[df['GROUP'] == g]`. -/
def selectIdx (gcells : List Cell) (g : String) : List Nat :=
  (List.range gcells.length).filter (fun i => gcells.getD i Cell.na == Cell.str g)

/-- `df[df['GROUP'] == g]` (line 110): keep, in every column, exactly the
rows whose GROUP cell equals `g`.  (Absent GROUP raises KeyError in the
source; the model returns the table unchanged on that unreachable path.) -/
def groupRows (t : Table) (g : String) : Table :=
  match getCol t "GROUP" with
  | some gcells =>
      t.map (fun c => ⟨c.name, (selectIdx gcells g).map (fun i => c.cells.getD i Cell.na)⟩)
  | none => t

/-- One record of the `pain_data` list built in lines 114-118. -/
structure PainRow where
  part : String
  group : String
  incidence : Option ℚ
deriving DecidableEq

/-- `create_body_part_comparison` (lines 103-120): for each body part and
each group, if the part's column exists in the subset, append its
incidence row; parts whose column is absent are silently skipped. -/
def create_body_part_comparison (t : Table) : List PainRow :=
  bodyParts.flatMap (fun part =>
    (["General", "Neuro"]).filterMap (fun g =>
      match getCol (groupRows t g) part with
      | some cells => some ⟨part, g, painIncidence cells⟩
      | none => none))

/-- `df.columns[df.columns.get_loc(col)-1]` (line 292): the previous
column name; Python index `-1` wraps to the LAST column when `col` is at
position 0. -/
def prevColName (cols : List String) (i : Nat) : String :=
  if i = 0 then cols.getLastD "" else cols.getD (i - 1) ""

/-- The guard of the 7-day-column search (line 292). -/
def sevenDayCond (cols : List String) (part : String) (i : Nat) : Bool :=
  strContains (cols.getD i "") "Unnamed" && strContains (prevColName cols i) part

/-- The `seven_day_col` lookup loop (lines 290-294): the first column
whose name contains "Unnamed" and whose predecessor (with Python's
wrap-around at position 0) contains the body-part name. -/
def findSevenDayCol (cols : List String) (part : String) : Option String :=
  (List.range cols.length).findSome? (fun i =>
    if sevenDayCond cols part i then some (cols.getD i "") else none)

/-! Spec-side definitions, written from the specification's words, used
only to compare against the source-derived definitions above. -/

/-- From the spec's words (§4.1 Cohort assignment): a boundary-indexed
assignment that fails with ConfigError when the boundary is negative or
exceeds the record count, and otherwise sends the first `boundary`
records to cohort A and the rest to cohort B. -/
def cohortAssignSpec (boundary : Int) (n : Nat) : Except String (List String) :=
  if boundary < 0 ∨ (n : Int) < boundary then .error "ConfigError"
  else .ok ((List.range n).map (fun i => if (i : Int) < boundary then "General" else "Neuro"))

/-- From the claim's words (C3): percentage of Yes among the NON-missing
responses for the field. -/
def painIncidenceSpecC3 (cells : List Cell) : Option ℚ :=
  let present := cells.filter (fun c => !cellIsNa c)
  if present.length = 0 then none
  else some (((cells.count (Cell.str "Yes") : ℚ) / (present.length : ℚ)) * 100)

/-- From the claim's words (C9): the first "Unnamed" column whose
IMMEDIATELY PRECEDING column (so only at positions ≥ 1) contains the
body-part name. -/
def findSevenDayColSpecC9 (cols : List String) (part : String) : Option String :=
  (List.range cols.length).findSome? (fun i =>
    if i ≠ 0 && strContains (cols.getD i "") "Unnamed" &&
        strContains (cols.getD (i - 1) "") part then
      some (cols.getD i "")
    else none)

/-! Helper lemmas about the positional cohort split. -/

theorem mkGroups_length (n : Nat) : (mkGroups n).length = n := by
  simp [mkGroups]

theorem mkGroups_getD (n i : Nat) (h : i < n) :
    (mkGroups n).getD i "" = if i < 20 then "General" else "Neuro" := by
  simp [mkGroups, List.getD_eq_getElem?_getD, List.getElem?_range, h]

theorem countP_range_lt (m n : Nat) :
    (List.range n).countP (fun i => decide (i < m)) = min n m := by
  induction n with
  | zero => simp
  | succ k ih =>
      rw [List.range_succ, List.countP_append, ih]
      by_cases h : k < m
      · simp [List.countP_cons, h]; omega
      · simp [List.countP_cons, h]; omega

theorem mkGroups_count_general (n : Nat) :
    (mkGroups n).count "General" = min n 20 := by
  have h1 : (mkGroups n).count "General"
      = (List.range n).countP (fun i => decide (i < 20)) := by
    rw [mkGroups, List.count_eq_countP, List.countP_map]
    apply List.countP_congr
    intro i _
    by_cases h : i < 20 <;> simp [Function.comp, h]
  rw [h1, countP_range_lt]

theorem mkGroups_count_neuro (n : Nat) :
    (mkGroups n).count "Neuro" = n - min n 20 := by
  have h1 : (mkGroups n).count "Neuro"
      = (List.range n).countP (fun i => decide (20 ≤ i)) := by
    rw [mkGroups, List.count_eq_countP, List.countP_map]
    apply List.countP_congr
    intro i _
    by_cases h : i < 20 <;> simp [Function.comp, h] <;> omega
  have h2 : n = (List.range n).countP (fun i => decide (i < 20))
      + (List.range n).countP (fun i => decide (20 ≤ i)) := by
    simpa using List.length_eq_countP_add_countP (fun i => decide (i < 20)) (List.range n)
  rw [countP_range_lt] at h2
  omega

/-- C1: cohort assignment is positional, exhaustive and exclusive — for
every record count `n`, the record at position `i < 20` gets cohort
"General", the record at `i ≥ 20` gets cohort "Neuro", no record gets
both, and the two cohort sizes add up to `n`. -/
theorem cohort_split_positional (n i : Nat) (h : i < n) :
    ((mkGroups n).getD i "" = "General" ↔ i < 20) ∧
    ((mkGroups n).getD i "" = "Neuro" ↔ 20 ≤ i) ∧
    ¬((mkGroups n).getD i "" = "General" ∧ (mkGroups n).getD i "" = "Neuro") ∧
    (mkGroups n).count "General" + (mkGroups n).count "Neuro" = n := by
  have hg := mkGroups_getD n i h
  refine ⟨?_, ?_, ?_, ?_⟩
  · rw [hg]; by_cases h20 : i < 20 <;> simp [h20]
  · rw [hg]; by_cases h20 : i < 20 <;> simp [h20] <;> omega
  · rw [hg]; by_cases h20 : i < 20 <;> simp [h20]
  · rw [mkGroups_count_general, mkGroups_count_neuro]; omega

theorem cohort_split_positional_witness :
    25 < 40 ∧
    (((mkGroups 40).getD 25 "" = "General" ↔ 25 < 20) ∧
     ((mkGroups 40).getD 25 "" = "Neuro" ↔ 20 ≤ 25) ∧
     ¬((mkGroups 40).getD 25 "" = "General" ∧ (mkGroups 40).getD 25 "" = "Neuro") ∧
     (mkGroups 40).count "General" + (mkGroups 40).count "Neuro" = 40) :=
  ⟨by decide, cohort_split_positional 40 25 (by decide)⟩

/-- C7 counterexample: the source takes no boundary parameter and never
fails.  On a 10-record input the claimed interface (modelled from the
spec) rejects the default boundary 20 with ConfigError, while the source
simply assigns all 10 records to cohort "General". -/
theorem cohort_boundary_counterexample :
    cohortAssignSpec 20 10 = Except.error "ConfigError" ∧
    mkGroups 10 = List.replicate 10 "General" :=
  ⟨rfl, by decide⟩

/-- C7 amended: cohort assignment takes no boundary parameter and
performs no validation; the boundary is hardcoded to 20, so for every
record count `n` the first `min n 20` records are "General", the rest
"Neuro", and no input is rejected. -/
theorem cohort_boundary_fixed (n i : Nat) (h : i < n) :
    (mkGroups n).length = n ∧
    (mkGroups n).getD i "" = (if i < 20 then "General" else "Neuro") ∧
    (mkGroups n).count "General" = min n 20 ∧
    (mkGroups n).count "Neuro" = n - min n 20 :=
  ⟨mkGroups_length n, mkGroups_getD n i h,
   mkGroups_count_general n, mkGroups_count_neuro n⟩

theorem cohort_boundary_fixed_witness :
    3 < 10 ∧
    ((mkGroups 10).length = 10 ∧
     (mkGroups 10).getD 3 "" = (if 3 < 20 then "General" else "Neuro") ∧
     (mkGroups 10).count "General" = min 10 20 ∧
     (mkGroups 10).count "Neuro" = 10 - min 10 20) :=
  ⟨by decide, cohort_boundary_fixed 10 3 (by decide)⟩

/-- C5 counterexample: the boundary cannot be set to 0 — it is the fixed
constant 20 of line 27 — so on the 40-record dataset cohort "General"
has 20 members, never 0: the claimed boundary-0 scenario (empty cohort A)
is not a behavior of the code. -/
theorem empty_cohort_counterexample :
    (mkGroups 40).count "General" = 20 ∧ (20 : Nat) ≠ 0 :=
  ⟨by decide, by decide⟩

/-- C5 amended: the cohort boundary is fixed at 20 (no parameter), so on
any dataset of at least 20 records cohort "General" has exactly 20
members; aggregations applied to an empty cohort do not raise and return
pandas' NaN, modelled as `none` — there is no distinct "undefined"
sentinel. -/
theorem empty_cohort_aggregates (n : Nat) (h : 20 ≤ n) :
    (mkGroups n).count "General" = 20 ∧
    rebaMean [] = none ∧ painIncidence [] = none := by
  refine ⟨?_, rfl, rfl⟩
  rw [mkGroups_count_general]; omega

theorem empty_cohort_aggregates_witness :
    20 ≤ 40 ∧
    ((mkGroups 40).count "General" = 20 ∧
     rebaMean [] = none ∧ painIncidence [] = none) :=
  ⟨by decide, empty_cohort_aggregates 40 (by decide)⟩

/-- C2 counterexample: `value_counts` omits zero-count categories.  For a
cohort whose only REBA category is 2, the summary has a single entry and
no entry for category 0; with a missing REBA value the counts sum to 1,
not to the cohort size 2. -/
theorem reba_counts_counterexample :
    rebaValueCounts [Cell.int 2] = [(Cell.int 2, 1)] ∧
    ((rebaValueCounts [Cell.int 2]).map Prod.fst).contains (Cell.int 0) = false ∧
    ((rebaValueCounts [Cell.int 2, Cell.na]).map Prod.snd).sum = 1 ∧
    ([Cell.int 2, Cell.na] : List Cell).length = 2 := by
  refine ⟨by decide, by decide, by decide, by decide⟩

/-- C2 amended: the REBA summary's per-category counts contain an entry
exactly for each non-missing category value that occurs (zero-count
categories are omitted), and the counts sum to the number of cohort
records with a non-missing REBA category — which is the cohort size
when no value is missing. -/
theorem reba_category_counts (cells : List Cell) :
    (((rebaValueCounts cells).map Prod.snd).sum
        = (cells.filter (fun c => !cellIsNa c)).length) ∧
    (∀ v : Cell, v ∈ (rebaValueCounts cells).map Prod.fst ↔
        (cellIsNa v = false ∧ v ∈ cells)) ∧
    (cells.all (fun c => !cellIsNa c) = true →
        ((rebaValueCounts cells).map Prod.snd).sum = cells.length) := by
  have hsum : ((rebaValueCounts cells).map Prod.snd).sum
      = (cells.filter (fun c => !cellIsNa c)).length := by
    have hmaps : ((rebaValueCounts cells).map Prod.snd)
        = ((cells.filter (fun c => !cellIsNa c)).dedup.map
            (fun v => (cells.filter (fun c => !cellIsNa c)).count v)) := by
      simp [rebaValueCounts, List.map_map, Function.comp]
    rw [hmaps, List.sum_map_count_dedup_eq_length]
  refine ⟨hsum, ?_, ?_⟩
  · intro v
    have hfst : (rebaValueCounts cells).map Prod.fst
        = (cells.filter (fun c => !cellIsNa c)).dedup := by
      simp only [rebaValueCounts, List.map_map]
      rw [show (Prod.fst ∘ fun v => (v, (cells.filter (fun c => !cellIsNa c)).count v))
          = id from rfl, List.map_id]
    rw [hfst, List.mem_dedup, List.mem_filter]
    constructor
    · rintro ⟨hm, hb⟩
      exact ⟨by simpa using hb, hm⟩
    · rintro ⟨hb, hm⟩
      exact ⟨hm, by simpa using hb⟩
  · intro hall
    rw [hsum]
    congr 1
    apply List.filter_eq_self.mpr
    intro a ha
    exact List.all_eq_true.mp hall a ha

theorem reba_category_counts_witness :
    (((rebaValueCounts [Cell.int 2]).map Prod.snd).sum
        = (([Cell.int 2] : List Cell).filter (fun c => !cellIsNa c)).length) ∧
    (∀ v : Cell, v ∈ (rebaValueCounts [Cell.int 2]).map Prod.fst ↔
        (cellIsNa v = false ∧ v ∈ ([Cell.int 2] : List Cell))) ∧
    (([Cell.int 2] : List Cell).all (fun c => !cellIsNa c) = true →
        ((rebaValueCounts [Cell.int 2]).map Prod.snd).sum
            = ([Cell.int 2] : List Cell).length) :=
  reba_category_counts [Cell.int 2]

/-- C3 counterexample: line 113 divides by the whole subset size, missing
responses included — not by the count of non-missing responses.  On a
cohort with one "Yes" and one missing cell the source computes 50%,
while the claimed formula (modelled from the spec's words) gives 100%. -/
theorem pain_incidence_denominator_counterexample :
    painIncidence [Cell.str "Yes", Cell.na] = some 50 ∧
    painIncidenceSpecC3 [Cell.str "Yes", Cell.na] = some 100 ∧
    ((50 : ℚ) ≠ 100) := by
  have hc : List.count (Cell.str "Yes") [Cell.str "Yes", Cell.na] = 1 := by decide
  have hp : (([Cell.str "Yes", Cell.na] : List Cell).filter
      (fun c => !cellIsNa c)).length = 1 := by decide
  refine ⟨?_, ?_, by norm_num⟩
  · simp [painIncidence, hc]
    norm_num
  · simp [painIncidenceSpecC3, hp, hc]

/-- C3 amended: for every cohort and field, the percentage of line 113
equals (count of "Yes") / (cohort size, missing responses included)
× 100, and whenever the cohort is non-empty it lies in [0, 100]. -/
theorem pain_incidence_formula (cells : List Cell) (p : ℚ)
    (h : painIncidence cells = some p) :
    p = ((cells.count (Cell.str "Yes") : ℚ) / (cells.length : ℚ)) * 100 ∧
    0 ≤ p ∧ p ≤ 100 := by
  unfold painIncidence at h
  by_cases hlen : cells.length = 0
  · simp [hlen] at h
  · simp [hlen] at h
    have hcount : cells.count (Cell.str "Yes") ≤ cells.length :=
      List.count_le_length _ _
    have hlen1 : (1 : ℚ) ≤ (cells.length : ℚ) := by
      have h1 : 1 ≤ cells.length := Nat.one_le_iff_ne_zero.mpr hlen
      exact_mod_cast h1
    have hdiv : ((cells.count (Cell.str "Yes") : ℚ) / (cells.length : ℚ)) ≤ 1 := by
      rw [div_le_one (by linarith)]
      exact_mod_cast hcount
    refine ⟨h.symm, ?_, ?_⟩
    · rw [← h]; positivity
    · rw [← h]
      calc ((cells.count (Cell.str "Yes") : ℚ) / (cells.length : ℚ)) * 100
          ≤ 1 * 100 := by
            apply mul_le_mul_of_nonneg_right hdiv
            norm_num
        _ = 100 := one_mul 100

theorem pain_incidence_formula_witness :
    painIncidence [Cell.str "No"] = some 0 ∧
    ((0 : ℚ) = ((List.count (Cell.str "Yes") [Cell.str "No"] : ℚ)
        / (([Cell.str "No"] : List Cell).length : ℚ)) * 100 ∧
     (0 : ℚ) ≤ 0 ∧ (0 : ℚ) ≤ 100) := by
  have h : painIncidence [Cell.str "No"] = some 0 := by
    have hc : List.count (Cell.str "Yes") [Cell.str "No"] = 0 := by decide
    simp [painIncidence, hc]
  exact ⟨h, pain_incidence_formula [Cell.str "No"] 0 h⟩

/-- A concrete processed table whose schema has no ELBOW column. -/
def tableNoElbow : Table :=
  [⟨"GROUP", [Cell.str "General", Cell.str "Neuro"]⟩,
   ⟨"NECK", [Cell.str "Yes", Cell.str "No"]⟩]

theorem getCol_groupRows_none (t : Table) (g name : String) :
    getCol (groupRows t g) name = none ↔ getCol t name = none := by
  unfold groupRows
  cases hG : getCol t "GROUP" with
  | none => exact Iff.rfl
  | some gcells =>
      simp only [getCol, Option.map_eq_none', List.find?_eq_none, List.mem_map]
      constructor
      · intro h c hc
        exact h ⟨c.name, (selectIdx gcells g).map (fun i => c.cells.getD i Cell.na)⟩
          ⟨c, hc, rfl⟩
      · intro h x hex
        obtain ⟨a, ha, hfa⟩ := hex
        subst hfa
        exact h a ha

/-- C4 counterexample: with the ELBOW column absent from the schema, the
comparison output of `create_body_part_comparison` contains rows for
NECK but no row at all for ELBOW — no "unavailable" entry and no 0%
entry is produced for either cohort. -/
theorem absent_region_counterexample :
    ((create_body_part_comparison tableNoElbow).map PainRow.part).contains "NECK" = true ∧
    ((create_body_part_comparison tableNoElbow).map PainRow.part).contains "ELBOW" = false := by
  refine ⟨by decide, by decide⟩

/-- C4 amended: if a body region's indicator column is entirely absent
from the input schema, `create_body_part_comparison` silently omits that
region from its output — no row is produced for it for either cohort. -/
theorem absent_region_omitted (t : Table) (part : String)
    (hp : part ∈ bodyParts) (habs : getCol t part = none) :
    ((create_body_part_comparison t).map PainRow.part).contains part = false := by
  have key : ∀ r ∈ create_body_part_comparison t, r.part ≠ part := by
    intro r hr hEq
    unfold create_body_part_comparison at hr
    rw [List.mem_flatMap] at hr
    obtain ⟨bp, hbp, hr2⟩ := hr
    rw [List.mem_filterMap] at hr2
    obtain ⟨g, hg, hsome⟩ := hr2
    cases hCol : getCol (groupRows t g) bp with
    | none =>
        rw [hCol] at hsome
        simp at hsome
    | some cells =>
        rw [hCol] at hsome
        simp only [Option.some.injEq] at hsome
        have hpart : r.part = bp := by rw [← hsome]
        have habs2 : getCol (groupRows t g) part = none :=
          (getCol_groupRows_none t g part).mpr habs
        rw [hpart] at hEq
        rw [hEq] at hCol
        rw [habs2] at hCol
        exact Option.noConfusion hCol
  by_contra hcon
  rw [Bool.not_eq_false] at hcon
  have hmem : part ∈ (create_body_part_comparison t).map PainRow.part :=
    List.mem_of_elem_eq_true hcon
  rw [List.mem_map] at hmem
  obtain ⟨r, hr, hrp⟩ := hmem
  exact key r hr hrp

theorem absent_region_omitted_witness :
    ("ELBOW" ∈ bodyParts ∧ getCol tableNoElbow "ELBOW" = none) ∧
    ((create_body_part_comparison tableNoElbow).map PainRow.part).contains "ELBOW" = false :=
  ⟨⟨by decide, by decide⟩,
   absent_region_omitted tableNoElbow "ELBOW" (by decide) (by decide)⟩

/-- C6 counterexample: pandas `Series.map` sends unmapped codes to NaN.
Gender code 3 becomes NaN, not the label "Unknown"; BMI code 7 becomes
NaN rather than passing through unchanged. -/
theorem label_normalization_counterexample :
    genderMap (Cell.int 3) = Cell.na ∧ Cell.na ≠ Cell.str "Unknown" ∧
    bmiMap (Cell.int 7) = Cell.na ∧ Cell.na ≠ Cell.int 7 :=
  ⟨by decide, by decide, by decide, by decide⟩

/-- C6 amended: label normalization is total (never raises): gender codes
other than 1 and 2 are mapped to the missing value NaN (not "Unknown");
codes unmapped by the BMI / working-place / technique tables also become
NaN rather than passing through; a binary indicator column whose integer
values stray outside {0, 1} is left completely unchanged; no diagnostics
list exists. -/
theorem label_normalization_amended (g c : Cell)
    (hg1 : g ≠ Cell.int 1) (hg2 : g ≠ Cell.int 2)
    (hc : ∀ k : Int, c = Cell.int k → k < 0 ∨ 3 < k) :
    genderMap g = Cell.na ∧
    bmiMap c = Cell.na ∧ workingPlaceMap c = Cell.na ∧ techniqueMap c = Cell.na ∧
    (∀ (t : Table) (col : Col), col ∈ t → colDtypeInt col.cells = true →
        colVals01 col.cells = false → col ∈ convertPain t) := by
  refine ⟨?_, ?_, ?_, ?_, ?_⟩
  · unfold genderMap
    split <;> simp_all
  · cases c with
    | na => rfl
    | str s => rfl
    | int i =>
        have hi := hc i rfl
        unfold bmiMap
        split <;> simp_all
  · cases c with
    | na => rfl
    | str s => rfl
    | int i =>
        have hi := hc i rfl
        unfold workingPlaceMap
        split <;> simp_all
  · cases c with
    | na => rfl
    | str s => rfl
    | int i =>
        have hi := hc i rfl
        unfold techniqueMap
        split <;> simp_all
  · intro t col hmem hint hbad
    have hcond : convertCond col.name col.cells = false := by
      unfold convertCond
      simp [hbad]
    refine List.mem_map.mpr ⟨col, hmem, ?_⟩
    rw [hcond]
    simp

theorem label_normalization_amended_witness :
    (Cell.int 3 ≠ Cell.int 1) ∧
    (genderMap (Cell.int 3) = Cell.na ∧
     bmiMap (Cell.int 7) = Cell.na ∧ workingPlaceMap (Cell.int 7) = Cell.na ∧
     techniqueMap (Cell.int 7) = Cell.na ∧
     (∀ (t : Table) (col : Col), col ∈ t → colDtypeInt col.cells = true →
        colVals01 col.cells = false → col ∈ convertPain t)) :=
  ⟨by decide,
   label_normalization_amended (Cell.int 3) (Cell.int 7) (by decide) (by decide)
     (by intro k hk; simp only [Cell.int.injEq] at hk; omega)⟩

/-- C8: the load-and-process pipeline is deterministic and pure — through
the memo cache, the first and the second run on the same raw input
produce the identical processed table, equal to `processTable raw`, and
the cache state is unchanged by the second run. -/
theorem pipeline_deterministic (raw : Table) :
    (runPipeline raw ⟨none⟩).1 = processTable raw ∧
    (runPipeline raw (runPipeline raw ⟨none⟩).2).1 = (runPipeline raw ⟨none⟩).1 ∧
    (runPipeline raw (runPipeline raw ⟨none⟩).2).2 = (runPipeline raw ⟨none⟩).2 :=
  ⟨rfl, rfl, rfl⟩

/-- C10: a column is converted to No/Yes exactly under the source's
guard — name without "Unnamed", not an excluded column, int64 dtype,
values within {0, 1} — a converted column holds only "No"/"Yes", and an
integer column with a value outside {0, 1} is left completely unchanged. -/
theorem binary_conversion_characterized (t : Table) (c : Col) (h : c ∈ t) :
    (convertCond c.name c.cells = true ↔
        (strContains c.name "Unnamed" = false ∧ excludedCols.contains c.name = false ∧
         colDtypeInt c.cells = true ∧ colVals01 c.cells = true)) ∧
    (convertCond c.name c.cells = true →
        Col.mk c.name (c.cells.map yesNoMap) ∈ convertPain t ∧
        (c.cells.map yesNoMap).all
            (fun x => x == Cell.str "No" || x == Cell.str "Yes") = true) ∧
    (convertCond c.name c.cells = false → c ∈ convertPain t) ∧
    (colDtypeInt c.cells = true → colVals01 c.cells = false → c ∈ convertPain t) := by
  have hmemT : convertCond c.name c.cells = false → c ∈ convertPain t := by
    intro hcond
    refine List.mem_map.mpr ⟨c, h, ?_⟩
    rw [hcond]
    simp
  refine ⟨?_, ?_, hmemT, ?_⟩
  · unfold convertCond
    constructor
    · intro hc
      simp only [Bool.and_eq_true, Bool.not_eq_true'] at hc
      exact ⟨hc.1.1.1, hc.1.1.2, hc.1.2, hc.2⟩
    · rintro ⟨h1, h2, h3, h4⟩
      simp [h1, h3, h4]
      simpa using h2
  · intro hcond
    constructor
    · refine List.mem_map.mpr ⟨c, h, ?_⟩
      rw [hcond]
      simp
    · have hvals : colVals01 c.cells = true := by
        unfold convertCond at hcond
        simp only [Bool.and_eq_true] at hcond
        exact hcond.2
      rw [List.all_eq_true]
      intro x hx
      obtain ⟨y, hy, hyx⟩ := List.mem_map.mp hx
      have hy01 : (y == Cell.int 0 || y == Cell.int 1) = true :=
        List.all_eq_true.mp hvals y hy
      rw [Bool.or_eq_true, beq_iff_eq, beq_iff_eq] at hy01
      cases hy01 with
      | inl h0 => rw [← hyx, h0]; decide
      | inr h1 => rw [← hyx, h1]; decide
  · intro hint hbad
    apply hmemT
    unfold convertCond
    simp [hbad]

theorem binary_conversion_characterized_witness :
    (Col.mk "NECK" [Cell.int 0, Cell.int 1] ∈
        ([⟨"NECK", [Cell.int 0, Cell.int 1]⟩] : Table)) ∧
    ((convertCond "NECK" [Cell.int 0, Cell.int 1] = true ↔
        (strContains "NECK" "Unnamed" = false ∧ excludedCols.contains "NECK" = false ∧
         colDtypeInt [Cell.int 0, Cell.int 1] = true ∧
         colVals01 [Cell.int 0, Cell.int 1] = true)) ∧
     (convertCond "NECK" [Cell.int 0, Cell.int 1] = true →
        Col.mk "NECK" ([Cell.int 0, Cell.int 1].map yesNoMap) ∈
            convertPain [⟨"NECK", [Cell.int 0, Cell.int 1]⟩] ∧
        ([Cell.int 0, Cell.int 1].map yesNoMap).all
            (fun x => x == Cell.str "No" || x == Cell.str "Yes") = true) ∧
     (convertCond "NECK" [Cell.int 0, Cell.int 1] = false →
        Col.mk "NECK" [Cell.int 0, Cell.int 1] ∈
            convertPain [⟨"NECK", [Cell.int 0, Cell.int 1]⟩]) ∧
     (colDtypeInt [Cell.int 0, Cell.int 1] = true →
        colVals01 [Cell.int 0, Cell.int 1] = false →
        Col.mk "NECK" [Cell.int 0, Cell.int 1] ∈
            convertPain [⟨"NECK", [Cell.int 0, Cell.int 1]⟩])) :=
  ⟨by decide,
   binary_conversion_characterized [⟨"NECK", [Cell.int 0, Cell.int 1]⟩]
     ⟨"NECK", [Cell.int 0, Cell.int 1]⟩ (by decide)⟩

/-- C9 counterexample: the lookup does not use the "immediately
preceding" column everywhere — at position 0 Python's index `-1` wraps
to the LAST column.  With schema ["Unnamed: 9", "NECK"] the source
selects "Unnamed: 9" (its wrap-around predecessor "NECK" matches), while
the claimed rule (modelled from the spec's words) finds no column. -/
theorem seven_day_wraparound_counterexample :
    findSevenDayCol ["Unnamed: 9", "NECK"] "NECK" = some "Unnamed: 9" ∧
    findSevenDayColSpecC9 ["Unnamed: 9", "NECK"] "NECK" = none :=
  ⟨by decide, by decide⟩

/-- C9 amended: the 7-day-recall field is discovered positionally — the
search returns a column exactly when some position `i` holds a column
containing "Unnamed" whose predecessor (the column at `i-1`, or the last
column when `i = 0`, after Python's negative indexing) contains the
body-part name; when no position qualifies it returns nothing and the
view reports that no 7-day data is available. -/
theorem seven_day_lookup (cols : List String) (part : String) :
    (findSevenDayCol cols part = none ↔
        ∀ i, i < cols.length → sevenDayCond cols part i = false) ∧
    (∀ c, findSevenDayCol cols part = some c →
        ∃ i, i < cols.length ∧ sevenDayCond cols part i = true ∧ c = cols.getD i "") := by
  constructor
  · rw [findSevenDayCol, List.findSome?_eq_none_iff]
    constructor
    · intro h i hi
      have hx := h i (List.mem_range.mpr hi)
      by_cases hcnd : sevenDayCond cols part i
      · rw [if_pos hcnd] at hx
        exact Option.noConfusion hx
      · exact Bool.not_eq_true _ ▸ Bool.of_not_eq_true hcnd
    · intro h x hx
      rw [h x (List.mem_range.mp hx)]
      simp
  · intro c hc
    obtain ⟨i, hi, heq⟩ := List.exists_of_findSome?_eq_some hc
    by_cases hcnd : sevenDayCond cols part i
    · rw [if_pos hcnd] at heq
      exact ⟨i, List.mem_range.mp hi, hcnd, (Option.some.injEq _ _ ▸ heq).symm⟩
    · rw [if_neg hcnd] at heq
      exact Option.noConfusion heq

theorem seven_day_lookup_witness :
    ((findSevenDayCol ["NECK", "Unnamed: 1"] "NECK" = none ↔
        ∀ i, i < (["NECK", "Unnamed: 1"] : List String).length →
          sevenDayCond ["NECK", "Unnamed: 1"] "NECK" i = false) ∧
     (∀ c, findSevenDayCol ["NECK", "Unnamed: 1"] "NECK" = some c →
        ∃ i, i < (["NECK", "Unnamed: 1"] : List String).length ∧
          sevenDayCond ["NECK", "Unnamed: 1"] "NECK" i = true ∧
          c = (["NECK", "Unnamed: 1"] : List String).getD i "")) :=
  seven_day_lookup ["NECK", "Unnamed: 1"] "NECK"

end ErgoApp
